import Mathlib

set_option maxRecDepth 100000

/-- Round constants of Keccak-f[1600], one 64-bit word per round, written as
decimal values. -/
def keccakRC : List Nat :=
  [1, 32898, 9223372036854808714,
   9223372039002292224, 32907, 2147483649,
   9223372039002292353, 9223372036854808585, 138,
   136, 2147516425, 2147483658,
   2147516555, 9223372036854775947, 9223372036854808713,
   9223372036854808579, 9223372036854808578, 9223372036854775936,
   32778, 9223372039002259466, 9223372039002292353,
   9223372036854808704, 2147483649, 9223372039002292232]

/-- Rotation offsets of Keccak-f[1600], row by row of the 5 x 5 lane grid in
flat index order (index = x + 5 * y). -/
def keccakRot : List Nat :=
  [0, 1, 62, 28, 27] ++ [36, 44, 6, 55, 20] ++ [3, 10, 43, 25, 39] ++
    [41, 45, 15, 21, 8] ++ [18, 2, 61, 56, 14]

/-- Rotate a 64-bit lane (a Nat below 2 ^ 64) left by n bits (0 < n < 64). -/
def rotl64 (x n : Nat) : Nat :=
  ((x <<< n) ||| (x >>> (64 - n))) % 2 ^ 64

/-- Theta step of one Keccak-f round; the state is 25 lanes, index = x + 5 * y. -/
def keccakTheta (A : List Nat) : List Nat :=
  let C := (List.range 5).map (fun x =>
    A.getD x 0 ^^^ A.getD (x + 5) 0 ^^^ A.getD (x + 10) 0 ^^^
      A.getD (x + 15) 0 ^^^ A.getD (x + 20) 0)
  let D := (List.range 5).map (fun x =>
    C.getD ((x + 4) % 5) 0 ^^^ rotl64 (C.getD ((x + 1) % 5) 0) 1)
  (List.range 25).map (fun i => A.getD i 0 ^^^ D.getD (i % 5) 0)

/-- Combined rho (rotation) and pi (lane permutation) steps of one Keccak-f round.
Output position (X, Y) receives the rotated lane from position ((X + 3Y) mod 5, X). -/
def keccakRhoPi (A : List Nat) : List Nat :=
  (List.range 25).map (fun j =>
    let x := (j % 5 + 3 * (j / 5)) % 5
    let y := j % 5
    rotl64 (A.getD (x + 5 * y) 0) (keccakRot.getD (x + 5 * y) 0))

/-- Chi step of one Keccak-f round; lane complement is xor with the 64-bit mask. -/
def keccakChi (B : List Nat) : List Nat :=
  (List.range 25).map (fun j =>
    let r := 5 * (j / 5)
    B.getD j 0 ^^^
      ((B.getD (r + (j % 5 + 1) % 5) 0 ^^^ (2 ^ 64 - 1)) &&& B.getD (r + (j % 5 + 2) % 5) 0))

/-- One full round of Keccak-f[1600]: theta, rho, pi, chi, then iota with constant rc. -/
def keccakRound (A : List Nat) (rc : Nat) : List Nat :=
  let B := keccakChi (keccakRhoPi (keccakTheta A))
  (List.range 25).map (fun j => if j == 0 then B.getD 0 0 ^^^ rc else B.getD j 0)

/-- The Keccak-f[1600] permutation: 24 rounds. -/
def keccakF (A : List Nat) : List Nat := keccakRC.foldl keccakRound A

/-- Little-endian packing of a list of bytes into one lane. -/
def laneOfBytes (bs : List Nat) : Nat :=
  bs.foldr (fun b acc => b % 256 + 256 * acc) 0

/-- The 17 lanes (136 bytes = rate of Keccak-256) of one absorbed block. -/
def blockLanes (block : List Nat) : List Nat :=
  (List.range 17).map (fun i => laneOfBytes ((block.drop (8 * i)).take 8))

/-- Xor one 136-byte block into the first 17 lanes of the state. -/
def xorBlock (st block : List Nat) : List Nat :=
  (List.range 25).map (fun i =>
    if i < 17 then st.getD i 0 ^^^ (blockLanes block).getD i 0 else st.getD i 0)

/-- Absorb k consecutive 136-byte blocks of msg into the state. -/
def absorbBlocks : Nat → List Nat → List Nat → List Nat
  | 0, st, _ => st
  | k + 1, st, msg => absorbBlocks k (keccakF (xorBlock st (msg.take 136))) (msg.drop 136)

/-- Multi-rate padding of original Keccak (domain byte 0x01, final bit 0x80),
as used by the Ethereum keccak256 that viem exposes. -/
def keccakPad (msg : List Nat) : List Nat :=
  let padLen := 136 - msg.length % 136
  if padLen == 1 then msg ++ [0x81]
  else msg ++ (0x01 :: List.replicate (padLen - 2) 0) ++ [0x80]

/-- Squeeze step: the 32 digest bytes are the first four state lanes in
little-endian order, packed here into one Nat. -/
def squeeze (st : List Nat) : Nat :=
  st.getD 0 0 % 2 ^ 64 + st.getD 1 0 % 2 ^ 64 * 2 ^ 64
    + st.getD 2 0 % 2 ^ 64 * 2 ^ 128 + st.getD 3 0 % 2 ^ 64 * 2 ^ 192

/-- Keccak-256 of a byte sequence, returned as the little-endian packing of its
32 digest bytes into one Nat. -/
def keccak256 (msg : List Nat) : Nat :=
  squeeze (absorbBlocks ((keccakPad msg).length / 136) (List.replicate 25 0)
    (keccakPad msg))

/-- UTF-8 encoding of one Unicode scalar value, as a list of bytes. -/
def utf8Char (c : Char) : List Nat :=
  let n := c.toNat
  if n < 128 then [n]
  else if n < 2048 then [192 + n / 64, 128 + n % 64]
  else if n < 65536 then [224 + n / 4096, 128 + n / 64 % 64, 128 + n % 64]
  else [240 + n / 262144, 128 + n / 4096 % 64, 128 + n / 64 % 64, 128 + n % 64]

/-- Embeds viem stringToBytes: the exact UTF-8 byte sequence of a string. -/
def stringToBytes (s : String) : List Nat := (s.data.map utf8Char).flatten

/-- Embeds topicHash from src/agent-app/src/index.ts and src/agent-2/src/index.ts:
keccak256 over the UTF-8 bytes of the topic label. -/
def topicHash (topic : String) : Nat := keccak256 (stringToBytes topic)

/-- Little-endian packing of a byte list into a Nat, for stating digest test vectors. -/
def packLE (bs : List Nat) : Nat := bs.foldr (fun b acc => b + 256 * acc) 0

/-- Decision record produced by the memory decision step (MemoryDecisionSchema in
src/agent-app/src/index.ts lines 319-323): should_store is required, topic and
summary are optional strings. -/
structure Decision where
  should_store : Bool
  topic : Option String := none
  summary : Option String := none
deriving Repr, DecidableEq

/-- JSON values, modelling what JSON.parse can return for the model response text. -/
inductive Json where
  | null
  | bool (b : Bool)
  | num (n : Int)
  | str (s : String)
  | arr (elems : List Json)
  | obj (fields : List (String × Json))

/-- Field lookup in a parsed JSON object; JSON.parse keeps the last duplicate key,
hence the reversed search. -/
def jsonLookup (fields : List (String × Json)) (key : String) : Option Json :=
  ((fields.reverse).find? (fun f => f.1 == key)).map Prod.snd

/-- Validation of one optional string field under zod semantics: an absent key is
accepted as none, a present string is accepted, any other present value fails
(the outer none means schema violation). -/
def optStringField (fields : List (String × Json)) (key : String) :
    Option (Option String) :=
  match jsonLookup fields key with
  | none => some none
  | some (Json.str s) => some (some s)
  | some _ => none

/-- Embeds MemoryDecisionSchema.parse: the value must be an object whose
should_store field is a boolean; topic and summary are optional strings.
Returns none exactly when zod would throw. -/
def validateDecision : Json → Option Decision
  | Json.obj fields =>
    match jsonLookup fields "should_store" with
    | some (Json.bool b) =>
      match optStringField fields "topic", optStringField fields "summary" with
      | some t, some s => some ⟨b, t, s⟩
      | _, _ => none
    | _ => none
  | _ => none

structure MemoryRecord where
  timestamp : Nat
  writer : String
  content : String
deriving Repr, DecidableEq

/-- Memory object shape built by the agents: the queried topic label plus the
on-chain record fields. -/
structure MemoryWithTopic where
  topic : String
  content : String
  timestamp : Nat
  writer : String
deriving Repr, DecidableEq

set_option linter.unusedVariables false in
/-- Embeds decideMemory (src/agent-app/src/index.ts lines 325-360). The language
model call is external; its response text after JSON.parse is the responseJson
argument, with none when JSON.parse throws. The memories argument only shapes
the prompt, never the fallback behaviour. -/
def decideMemory (memories : List MemoryWithTopic) (responseJson : Option Json) :
    Decision :=
  match responseJson with
  | none => ⟨false, none, none⟩
  | some j =>
    match validateDecision j with
    | some d => d
    | none => ⟨false, none, none⟩

/-- Observable outcome of one on-chain call issued through viem: a value, a
contract revert, or a transport-level failure. Both failure kinds surface as a
thrown exception in the TypeScript client. -/
inductive CallOutcome (α : Type) where
  | success (value : α)
  | revert
  | transportFail
deriving Repr, DecidableEq

/-- Ledger state visible to one getLatestMemory call: the transport health and
the append-only MemorySet for the queried (owner, topicKey) pair. -/
structure TopicRead where
  transportOk : Bool
  records : List MemoryRecord

/-- Modelled from the spec: the MemoryVault contract itself is not part of the
repository. Section 4.2 fixes that the client getLatest returns None when the
MemorySet is empty, so the raw getLatestMemory contract call must fail (revert)
on an empty set; a transport problem fails independently of the set. -/
def rawGetLatest (r : TopicRead) : CallOutcome MemoryRecord :=
  if r.transportOk then
    match r.records.getLast? with
    | some m => CallOutcome.success m
    | none => CallOutcome.revert
  else CallOutcome.transportFail

/-- Embeds getLatestMemory (src/agent-app/src/index.ts lines 276-296): on a
successful read it returns the record tagged with the topic; the catch block
maps every thrown error - revert and transport failure alike - to null. -/
def getLatestMemory (r : TopicRead) (topic : String) : Option MemoryWithTopic :=
  match rawGetLatest r with
  | CallOutcome.success m => some ⟨topic, m.content, m.timestamp, m.writer⟩
  | _ => none

/-- JavaScript truthiness of an optional string: undefined and the empty string
are falsy. -/
def truthy (v : Option String) : Bool :=
  match v with
  | some s => !(s == "")
  | none => false

/-- The store condition of the orchestrator turn (src/agent-app/src/index.ts
line 425): decision.should_store && decision.topic && decision.summary. -/
def storeCond (d : Decision) : Bool :=
  d.should_store && truthy d.topic && truthy d.summary

/-- The fixed candidate topics of the agent-app reading phase (line 410). -/
def agentTopics : List String := ["identity_profile", "preferences", "risk_profile"]

/-- External inputs consumed by one orchestrator turn: the user utterance, the
per-topic ledger view, the parsed model response of the decision step, and
whether the write transaction would succeed. -/
structure TurnInput where
  msg : String
  reads : String → TopicRead
  decisionJson : Option Json
  writeOk : Bool

/-- Observable effects of one orchestrator turn: the retrieved memories, the
inputs handed to the reply generation, the decision, the storeMemory calls
issued (topic, summary), and whether a write error was reported. -/
structure TurnResult where
  memories : List MemoryWithTopic
  replyMsg : String
  replyMemories : List MemoryWithTopic
  decision : Decision
  storeAttempts : List (String × String)
  storeError : Bool
  storedOnChain : Bool
deriving Repr, DecidableEq

/-- Embeds the loop body of main (src/agent-app/src/index.ts lines 405-436):
read the three candidate topics dropping nulls, answer grounded in the
retrieved memories, decide, and conditionally store once with the write error
caught and reported. -/
def runTurn (inp : TurnInput) : TurnResult :=
  let memories := agentTopics.filterMap (fun t => getLatestMemory (inp.reads t) t)
  let decision := decideMemory memories inp.decisionJson
  if storeCond decision then
    { memories := memories
      replyMsg := inp.msg
      replyMemories := memories
      decision := decision
      storeAttempts := [(decision.topic.getD "", decision.summary.getD "")]
      storeError := !inp.writeOk
      storedOnChain := inp.writeOk }
  else
    { memories := memories
      replyMsg := inp.msg
      replyMemories := memories
      decision := decision
      storeAttempts := []
      storeError := false
      storedOnChain := false }

/-- Embeds the unbounded while loop of main over an abstract input stream, one
turn per utterance, following the design note of spec section 9. -/
def runLoop (inps : List TurnInput) : List TurnResult := inps.map runTurn

/-- The fixed topic catalog of the read-only agent (src/agent-2/src/index.ts
lines 222-230). -/
def knownTopics : List String :=
  ["identity_profile", "preferences", "risk_profile", "user_identity",
   "personal_identity", "wallet_profile", "goals"]

/-- Ledger interface seen by one topic of the read-only scan: the outcome of the
getMemoryCount call and of each indexed getMemory call. -/
structure TopicScan where
  countResult : CallOutcome Nat
  memResult : Nat → CallOutcome MemoryRecord

/-- The inner index loop of fetchUserMemories: read and push records starting at
index i for k remaining indices; the first thrown error ends the topic, keeping
the records already pushed. -/
def readRecords (s : Nat → CallOutcome MemoryRecord) (topic : String) :
    Nat → Nat → List MemoryWithTopic
  | _, 0 => []
  | i, k + 1 =>
    match s i with
    | CallOutcome.success m =>
      ⟨topic, m.content, m.timestamp, m.writer⟩ :: readRecords s topic (i + 1) k
    | _ => []

/-- One iteration of the topic loop of fetchUserMemories: a failing count read
makes the try/catch skip the topic entirely. -/
def scanTopic (sc : TopicScan) (topic : String) : List MemoryWithTopic :=
  match sc.countResult with
  | CallOutcome.success count => readRecords sc.memResult topic 0 count
  | _ => []

/-- Embeds fetchUserMemories (src/agent-2/src/index.ts lines 236-270): per-topic
try/catch around a count read followed by indexed reads appended to one flat
result list in catalog order. -/
def fetchUserMemories (ledger : String → TopicScan) : List MemoryWithTopic :=
  (knownTopics.map (fun t => scanTopic (ledger t) t)).flatten

/-- The record a topic contributes at one index, for stating the scan result
independently of the loop structure. -/
def recordAt (s : Nat → CallOutcome MemoryRecord) (topic : String) (i : Nat) :
    MemoryWithTopic :=
  match s i with
  | CallOutcome.success m => ⟨topic, m.content, m.timestamp, m.writer⟩
  | _ => ⟨topic, "", 0, ""⟩

def isSuccess {α : Type} : CallOutcome α → Bool
  | CallOutcome.success _ => true
  | _ => false

/-- Specification-side description of one scanned topic: the indices 0 to
count-1 up to the first failing read, each mapped to its record; empty when the
count read fails. -/
def expectedTopicRecords (sc : TopicScan) (topic : String) : List MemoryWithTopic :=
  match sc.countResult with
  | CallOutcome.success count =>
    ((List.range count).takeWhile (fun i => isSuccess (sc.memResult i))).map
      (recordAt sc.memResult topic)
  | _ => []

/-- Request body of the worker endpoints, as parsed from JSON: each field is
absent or a string value. -/
structure ReqBody where
  user_address : Option String := none
  topic : Option String := none
  content : Option String := none
deriving Repr, DecidableEq

/-- Response bodies the worker can produce, abstracting the JSON payloads. -/
inductive RespBody where
  | descriptor
  | storeOk (message : String) (tx_hash : String)
  | getOk (timestamp : Nat) (writer : String) (content : String)
  | fieldError (error : String)
  | preflight
  | notFound
  | serverError
deriving Repr, DecidableEq

structure WorkerResponse where
  status : Nat
  body : RespBody
deriving Repr, DecidableEq

/-- Incoming HTTP request as seen by the worker fetch handler: method, URL path,
and the parsed JSON body (used only by the POST endpoints). -/
structure WorkerRequest where
  method : String
  path : String
  body : ReqBody

/-- Embeds the fetch handler of src/mcp-memory-vault/src/server.ts lines 14-189.
The on-chain effects are given by writeResult (the storeMemoryFor transaction)
and readResult (the getLatestMemory call); the outer try/catch maps any thrown
error to a 500 response. The second component counts writeContract calls
issued. Note the GET branch checks only the method, never the path. -/
def workerFetch (req : WorkerRequest) (writeResult : CallOutcome String)
    (readResult : CallOutcome MemoryRecord) : WorkerResponse × Nat :=
  if req.method == "GET" then
    (⟨200, RespBody.descriptor⟩, 0)
  else if req.method == "POST" && req.path == "/store-memory" then
    if !(truthy req.body.user_address && truthy req.body.topic &&
         truthy req.body.content) then
      (⟨400, RespBody.fieldError "Missing required fields: user_address, topic, content"⟩, 0)
    else
      match writeResult with
      | CallOutcome.success tx =>
        (⟨200, RespBody.storeOk
          ("Successfully stored memory for user " ++ req.body.user_address.getD ""
            ++ " under topic " ++ req.body.topic.getD "") tx⟩, 1)
      | _ => (⟨500, RespBody.serverError⟩, 1)
  else if req.method == "POST" && req.path == "/get-memory" then
    if !(truthy req.body.user_address && truthy req.body.topic) then
      (⟨400, RespBody.fieldError "Missing required fields: user_address, topic"⟩, 0)
    else
      match readResult with
      | CallOutcome.success m =>
        (⟨200, RespBody.getOk m.timestamp m.writer m.content⟩, 0)
      | _ => (⟨500, RespBody.serverError⟩, 0)
  else if req.method == "OPTIONS" then
    (⟨204, RespBody.preflight⟩, 0)
  else
    (⟨404, RespBody.notFound⟩, 0)

/-- Whitespace in the sense of the JavaScript trim: space, tab, newline,
carriage return, form feed and vertical tab. -/
def isJsWhitespace (c : Char) : Bool :=
  c == ' ' || c == '\t' || c == '\n' || c == '\r' ||
    c == Char.ofNat 12 || c == Char.ofNat 11

/-- Embeds the JavaScript String.prototype.trim used by getEnv: removes
whitespace from both ends of the string. -/
def trimString (s : String) : String :=
  String.mk (((s.data.dropWhile isJsWhitespace).reverse.dropWhile
    isJsWhitespace).reverse)

/-- Embeds the helper safe of getEnv (src/agent-app/src/index.ts line 113):
trim the candidate, and treat a missing value or a value trimming to the empty
string as absent. -/
def safeVar (v : Option String) : Option String :=
  match v with
  | some s => if trimString s == "" then none else some (trimString s)
  | none => none

/-- Resolution of one configuration variable by the fixed precedence of getEnv:
explicit env argument, then wrangler.jsonc vars, then process.env. -/
def resolveVar (envArg varsVal procVal : Option String) : Option String :=
  (safeVar envArg).orElse (fun _ => (safeVar varsVal).orElse (fun _ => safeVar procVal))

/-- One source of configuration values (the env argument, the wrangler.jsonc
vars, or process.env), restricted to the variables agent-app reads. -/
structure EnvSource where
  ANTHROPIC_API_KEY : Option String := none
  RPC_URL : Option String := none
  MEMORY_VAULT_ADDRESS : Option String := none
  USER_ADDRESS : Option String := none
  AGENT_PRIVATE_KEY : Option String := none
  MODEL_ID : Option String := none

/-- The configuration record getEnv returns: keys with a || "" fallback are
strings, the two address keys stay possibly undefined, MODEL_ID gets the fixed
default model id. -/
structure AppConfig where
  ANTHROPIC_API_KEY : String
  RPC_URL : String
  MEMORY_VAULT_ADDRESS : Option String
  USER_ADDRESS : Option String
  AGENT_PRIVATE_KEY : String
  MODEL_ID : String
deriving Repr, DecidableEq

/-- Embeds getEnv (src/agent-app/src/index.ts lines 111-144). -/
def getEnv (env vars procEnv : EnvSource) : AppConfig :=
  { ANTHROPIC_API_KEY :=
      (resolveVar env.ANTHROPIC_API_KEY vars.ANTHROPIC_API_KEY
        procEnv.ANTHROPIC_API_KEY).getD ""
    RPC_URL := (resolveVar env.RPC_URL vars.RPC_URL procEnv.RPC_URL).getD ""
    MEMORY_VAULT_ADDRESS :=
      resolveVar env.MEMORY_VAULT_ADDRESS vars.MEMORY_VAULT_ADDRESS
        procEnv.MEMORY_VAULT_ADDRESS
    USER_ADDRESS :=
      resolveVar env.USER_ADDRESS vars.USER_ADDRESS procEnv.USER_ADDRESS
    AGENT_PRIVATE_KEY :=
      (resolveVar env.AGENT_PRIVATE_KEY vars.AGENT_PRIVATE_KEY
        procEnv.AGENT_PRIVATE_KEY).getD ""
    MODEL_ID :=
      (resolveVar env.MODEL_ID vars.MODEL_ID procEnv.MODEL_ID).getD
        "claude-3-5-sonnet-20241022" }

/-- Embeds the MODEL_ID resolution of getEnv in src/agent-2/src/index.ts lines
118-122, whose fixed default model id differs from agent-app. -/
def getEnvAgent2ModelId (env vars procEnv : EnvSource) : String :=
  (resolveVar env.MODEL_ID vars.MODEL_ID procEnv.MODEL_ID).getD
    "claude-sonnet-4-20250514"

/-- JavaScript truthiness of a string: only the empty string is falsy. -/
def truthyStr (s : String) : Bool := !(s == "")

/-- Embeds the startup check of the function named initialize in
src/agent-app/src/index.ts lines 150-162: when any required variable resolved
to a falsy value the process exits with a non-zero status, modelled as none. -/
def initConfig (env vars procEnv : EnvSource) : Option AppConfig :=
  let config := getEnv env vars procEnv
  if !truthyStr config.ANTHROPIC_API_KEY || !truthyStr config.RPC_URL ||
     !truthy config.MEMORY_VAULT_ADDRESS || !truthy config.USER_ADDRESS ||
     !truthyStr config.AGENT_PRIVATE_KEY then
    none
  else
    some config

/-- The topic label made of n copies of the letter a, an infinite family of
pairwise byte-distinct topics. -/
def aTopic (n : Nat) : String := String.mk (List.replicate n 'a')

/-- Concrete stored record used by the C2 scenarios. -/
def c2Record : MemoryRecord := ⟨5, "0xwriter", "name is Alex"⟩

/-- Concrete per-topic ledger view for the C5 witness scenario: the read of the
topic preferences fails at the transport level, the other two topics succeed. -/
def c5Reads : String → TopicRead := fun t =>
  if t == "preferences" then ⟨false, [⟨1, "0xw", "ignored"⟩]⟩
  else if t == "identity_profile" then ⟨true, [⟨2, "0xw", "name Alex"⟩]⟩
  else ⟨true, [⟨3, "0xw", "low risk"⟩]⟩

/-- Concrete turn input for the C5 witness scenario. -/
def c5Input : TurnInput := ⟨"hello", c5Reads, none, true⟩

/-- Concrete turn input for the C4 witness: the decision JSON asks to store a
non-empty topic and summary. -/
def c4Input : TurnInput :=
  ⟨"My name is Alex, remember that.", fun _ => ⟨true, []⟩,
   some (Json.obj [("should_store", Json.bool true),
     ("topic", Json.str "identity_profile"),
     ("summary", Json.str "User name is Alex")]), true⟩

/-- Concrete ledger for the C7 counterexample: the topic identity_profile
reports two records but its second indexed read fails; every other topic fails
at the count read. -/
def c7Ledger : String → TopicScan := fun t =>
  if t == "identity_profile" then
    ⟨CallOutcome.success 2, fun i =>
      if i == 0 then CallOutcome.success ⟨1, "0xwriter", "partial record"⟩
      else CallOutcome.transportFail⟩
  else ⟨CallOutcome.revert, fun _ => CallOutcome.revert⟩

/-- Concrete per-topic scan for the C7 witness: two records, both reads succeed. -/
def c7GoodScan : TopicScan :=
  ⟨CallOutcome.success 2, fun i =>
    if i == 0 then CallOutcome.success ⟨10, "0xw", "first"⟩
    else CallOutcome.success ⟨11, "0xw", "second"⟩⟩

/-- Request body with the content field absent, for the C8 witness. -/
def c8BodyMissing : ReqBody := ⟨some "0xabc", some "prefs", none⟩

/-- Request body whose three fields are all present but whose content is the
empty string, for the C8 counterexample. -/
def c8BodyEmpty : ReqBody := ⟨some "0xabc", some "prefs", some ""⟩

/-- Environment source whose ANTHROPIC_API_KEY is present but whitespace-only,
for the C10 witness. -/
def wsEnv : EnvSource := { ANTHROPIC_API_KEY := some "   " }

/-- Known digest: keccak256 of the empty byte sequence is
c5d2460186f7233c927e7db2dcc703c0e500b653ca82273b7bfad8045d85a470. -/
theorem keccak256_empty_vector :
    keccak256 [] = packLE [0xc5, 0xd2, 0x46, 0x01, 0x86, 0xf7, 0x23, 0x3c, 0x92, 0x7e,
      0x7d, 0xb2, 0xdc, 0xc7, 0x03, 0xc0, 0xe5, 0x00, 0xb6, 0x53, 0xca, 0x82, 0x27,
      0x3b, 0x7b, 0xfa, 0xd8, 0x04, 0x5d, 0x85, 0xa4, 0x70] := by decide

/-- Known digest: keccak256 of the UTF-8 bytes of "abc" is
4e03657aea45a94fc7d47ba826c8d667c0d1e6e33a64a036ec44f58fa12d6c45. -/
theorem keccak256_abc_vector :
    keccak256 (stringToBytes "abc") = packLE [0x4e, 0x03, 0x65, 0x7a, 0xea, 0x45, 0xa9,
      0x4f, 0xc7, 0xd4, 0x7b, 0xa8, 0x26, 0xc8, 0xd6, 0x67, 0xc0, 0xd1, 0xe6, 0xe3,
      0x3a, 0x64, 0xa0, 0x36, 0xec, 0x44, 0xf5, 0x8f, 0xa1, 0x2d, 0x6c, 0x45] := by decide

/-- The squeeze step packs 32 bytes, so its value is below 2 ^ 256. -/
theorem squeeze_lt (st : List Nat) : squeeze st < 2 ^ 256 := by
  unfold squeeze
  have h1 : st.getD 0 0 % 2 ^ 64 < 2 ^ 64 := Nat.mod_lt _ (by norm_num)
  have h2 : st.getD 1 0 % 2 ^ 64 < 2 ^ 64 := Nat.mod_lt _ (by norm_num)
  have h3 : st.getD 2 0 % 2 ^ 64 < 2 ^ 64 := Nat.mod_lt _ (by norm_num)
  have h4 : st.getD 3 0 % 2 ^ 64 < 2 ^ 64 := Nat.mod_lt _ (by norm_num)
  have e1 : (2 : Nat) ^ 64 = 18446744073709551616 := by norm_num
  have e2 : (2 : Nat) ^ 128 = 340282366920938463463374607431768211456 := by norm_num
  have e3 : (2 : Nat) ^ 192 =
      6277101735386680763835789423207666416102355444464034512896 := by norm_num
  have e4 : (2 : Nat) ^ 256 =
      115792089237316195423570985008687907853269984665640564039457584007913129639936 := by
    norm_num
  rw [e1] at h1 h2 h3 h4 ⊢
  rw [e2, e3, e4]
  omega

/-- Every Keccak-256 digest value is below 2 ^ 256, that is, fits in 32 bytes. -/
theorem keccak256_lt (msg : List Nat) : keccak256 msg < 2 ^ 256 := squeeze_lt _

/-- Every topic key fits in 32 bytes. -/
theorem topicHash_lt (t : String) : topicHash t < 2 ^ 256 := keccak256_lt _

theorem flatten_replicate_single (n b : Nat) :
    (List.replicate n [b]).flatten = List.replicate n b := by
  induction n with
  | zero => rfl
  | succ k ih => simp [List.replicate_succ, ih]

/-- The UTF-8 bytes of the topic made of n letters a are n copies of byte 97. -/
theorem stringToBytes_aTopic (n : Nat) :
    stringToBytes (aTopic n) = List.replicate n 97 := by
  show ((List.replicate n 'a').map utf8Char).flatten = _
  rw [List.map_replicate]
  have h : utf8Char 'a' = [97] := by decide
  rw [h, flatten_replicate_single]

/-- C1 counterexample: the claim that every pair of byte-distinct topic strings
gets distinct keys is false, because a 32-byte digest cannot be injective on an
infinite family of byte-distinct topics; this proves the negation of the
universal statement by pigeonhole. -/
theorem c1_collision_exists :
    ¬ (∀ t1 t2 : String, stringToBytes t1 ≠ stringToBytes t2 →
        topicHash t1 ≠ topicHash t2) := by
  intro h
  obtain ⟨m, n, hmn, heq⟩ := Finite.exists_ne_map_eq_of_infinite
    (fun k : Nat => (⟨topicHash (aTopic k), topicHash_lt _⟩ : Fin (2 ^ 256)))
  have hbytes : stringToBytes (aTopic m) ≠ stringToBytes (aTopic n) := by
    intro hb
    apply hmn
    have hlen := congrArg List.length hb
    rw [stringToBytes_aTopic, stringToBytes_aTopic, List.length_replicate,
      List.length_replicate] at hlen
    exact hlen
  exact h _ _ hbytes (by simpa using congrArg Fin.val heq)

/-- Concrete key value of the topic label identity_profile, by kernel
evaluation of the Keccak-256 embedding. -/
theorem topicHash_value_identity_profile :
    topicHash "identity_profile" =
      53615825805812975935399284609926649743684404288912787326808244743310861812627 := by
  decide

theorem topicHash_value_preferences :
    topicHash "preferences" =
      20137945788703623842241562726003073959614682571232265533359697764645745150730 := by
  decide

theorem topicHash_value_risk_profile :
    topicHash "risk_profile" =
      110372751810091694661923151591947455858585886445628035490209440566444596412348 := by
  decide

theorem topicHash_value_user_identity :
    topicHash "user_identity" =
      106291275872200679910092671858181681321225131956257931877011483600445329020193 := by
  decide

theorem topicHash_value_personal_identity :
    topicHash "personal_identity" =
      19092374993560596484640936718148203038469949566747144701304878919647468450235 := by
  decide

theorem topicHash_value_wallet_profile :
    topicHash "wallet_profile" =
      90917825208188502379703086674138628434328904806219503885142957192719916508469 := by
  decide

theorem topicHash_value_goals :
    topicHash "goals" =
      64688610167245862716650717722762413334575695636867376135346003414258682839724 := by
  decide

theorem topicHash_value_topic :
    topicHash "topic" =
      70967753913881813387005132662326628106630078805265230372638462678892911194206 := by
  decide

theorem topicHash_value_space_topic :
    topicHash " topic" =
      80627633523405022968413028436045024721344417942662891531700089752982313152726 := by
  decide

theorem topicHash_value_capital_topic :
    topicHash "Topic" =
      58810474809174496583843547296651199565023182545270410615808216810454606113633 := by
  decide

/-- C1 (amended): topicHash is a pure function of the exact UTF-8 byte sequence
of the topic (deterministic, byte-exact, no normalization: a leading space or a
case change selects a different key), every key fits in 32 bytes, and the seven
topic labels of the catalog map to pairwise distinct keys; universal injectivity
over all byte-distinct strings cannot hold. -/
theorem c1_topicHash_spec :
    (∀ t1 t2 : String, stringToBytes t1 = stringToBytes t2 →
      topicHash t1 = topicHash t2) ∧
    (∀ t : String, topicHash t < 2 ^ 256) ∧
    topicHash " topic" ≠ topicHash "topic" ∧
    topicHash "Topic" ≠ topicHash "topic" ∧
    ((knownTopics.map topicHash).Nodup) := by
  refine ⟨?_, topicHash_lt, ?_, ?_, ?_⟩
  · intro t1 t2 h
    unfold topicHash
    rw [h]
  · rw [topicHash_value_space_topic, topicHash_value_topic]; decide
  · rw [topicHash_value_capital_topic, topicHash_value_topic]; decide
  · show ((["identity_profile", "preferences", "risk_profile", "user_identity",
      "personal_identity", "wallet_profile", "goals"].map topicHash).Nodup)
    simp only [List.map_cons, List.map_nil, topicHash_value_identity_profile,
      topicHash_value_preferences, topicHash_value_risk_profile,
      topicHash_value_user_identity, topicHash_value_personal_identity,
      topicHash_value_wallet_profile, topicHash_value_goals]
    decide

/-- C1 witness: the amended theorem applied at concrete topics. -/
theorem c1_witness :
    topicHash "preferences" = topicHash "preferences" ∧
    topicHash "goals" < 2 ^ 256 :=
  ⟨c1_topicHash_spec.1 "preferences" "preferences" rfl,
   c1_topicHash_spec.2.1 "goals"⟩

/-- C2 counterexample: a transport-level failure on a non-empty MemorySet is
reported as null, exactly like an empty MemorySet, so a transport failure is
conflated with record absence and the null result does not characterize
emptiness. -/
theorem c2_conflation :
    getLatestMemory ⟨false, [c2Record]⟩ "identity_profile" = none ∧
    getLatestMemory ⟨true, []⟩ "identity_profile" = none ∧
    [c2Record] ≠ ([] : List MemoryRecord) := by
  refine ⟨rfl, rfl, by decide⟩

/-- C2 (amended): getLatestMemory never raises and returns null exactly when
the MemorySet is empty or the call failed at the transport level; on a healthy
transport it returns the last appended record tagged with the topic. Every
failure is conflated with absence. -/
theorem c2_getLatest_spec :
    ∀ (r : TopicRead) (topic : String),
      (getLatestMemory r topic = none ↔
        r.transportOk = false ∨ r.records = []) ∧
      (∀ m, r.transportOk = true → r.records.getLast? = some m →
        getLatestMemory r topic = some ⟨topic, m.content, m.timestamp, m.writer⟩) := by
  intro r topic
  obtain ⟨ok, records⟩ := r
  constructor
  · unfold getLatestMemory rawGetLatest
    cases ok with
    | false => simp
    | true =>
      simp only [if_true]
      cases hl : records.getLast? with
      | none =>
        simp only [List.getLast?_eq_none_iff] at hl
        simp [hl]
      | some m =>
        have hne : records ≠ [] := by
          intro h
          rw [h] at hl
          exact Option.noConfusion hl
        simp [hl, hne]
  · intro m hok hl
    cases hok
    unfold getLatestMemory rawGetLatest
    simp only [if_true]
    rw [hl]

/-- C2 witness: the amended theorem applied to a healthy one-record set. -/
theorem c2_witness :
    getLatestMemory ⟨true, [c2Record]⟩ "identity_profile" =
      some ⟨"identity_profile", "name is Alex", 5, "0xwriter"⟩ :=
  (c2_getLatest_spec ⟨true, [c2Record]⟩ "identity_profile").2 c2Record rfl rfl

/-- C3: decideMemory never lets a parse or validation failure escape: a model
response that is not valid JSON (JSON.parse throws) or that fails the Decision
schema (zod throws, in particular whenever the required boolean should_store is
absent) yields the fail-safe default Decision with should_store false. -/
theorem c3_decide_failsafe :
    (∀ memories, decideMemory memories none = ⟨false, none, none⟩) ∧
    (∀ memories j, validateDecision j = none →
      decideMemory memories (some j) = ⟨false, none, none⟩) ∧
    (∀ fields, (jsonLookup fields "should_store").isNone = true →
      validateDecision (Json.obj fields) = none) := by
  refine ⟨fun _ => rfl, ?_, ?_⟩
  · intro memories j h
    simp [decideMemory, h]
  · intro fields h
    rw [Option.isNone_iff_eq_none] at h
    simp [validateDecision, h]

/-- C3 witness: the fail-safe theorem applied to a response that is valid JSON
but not an object, and to an object missing the required should_store field. -/
theorem c3_witness :
    decideMemory [] (some (Json.str "not an object")) = ⟨false, none, none⟩ ∧
    decideMemory [] (some (Json.obj [("topic", Json.str "prefs")])) =
      ⟨false, none, none⟩ :=
  ⟨c3_decide_failsafe.2.1 [] _ rfl, c3_decide_failsafe.2.1 [] _ rfl⟩

/-- The decision of a turn is the decision step applied to the user message
response, whatever the write branch does. -/
theorem runTurn_decision (inp : TurnInput) :
    (runTurn inp).decision =
      decideMemory (agentTopics.filterMap (fun t => getLatestMemory (inp.reads t) t))
        inp.decisionJson := by
  simp only [runTurn]
  split <;> rfl

/-- The memories of a turn are the per-topic reads with nulls dropped. -/
theorem runTurn_memories (inp : TurnInput) :
    (runTurn inp).memories =
      agentTopics.filterMap (fun t => getLatestMemory (inp.reads t) t) := by
  simp only [runTurn]
  split <;> rfl

theorem runTurn_replyMsg (inp : TurnInput) : (runTurn inp).replyMsg = inp.msg := by
  simp only [runTurn]
  split <;> rfl

/-- The reply generation receives exactly the retrieved memories. -/
theorem runTurn_replyMemories (inp : TurnInput) :
    (runTurn inp).replyMemories = (runTurn inp).memories := by
  simp only [runTurn]
  split <;> rfl

/-- The store calls of a turn: one call with the decision topic and summary
when the store condition holds, none otherwise. -/
theorem runTurn_storeAttempts (inp : TurnInput) :
    (runTurn inp).storeAttempts =
      if storeCond (runTurn inp).decision then
        [((runTurn inp).decision.topic.getD "", (runTurn inp).decision.summary.getD "")]
      else [] := by
  rw [runTurn_decision inp]
  simp only [runTurn]
  split <;> simp_all

/-- A write error is reported exactly when a store was attempted and the write
failed. -/
theorem runTurn_storeError (inp : TurnInput) :
    (runTurn inp).storeError = (storeCond (runTurn inp).decision && !inp.writeOk) := by
  rw [runTurn_decision inp]
  simp only [runTurn]
  split <;> simp_all

/-- The boolean store condition of the source, characterized: should_store must
be true and both topic and summary must be present and non-empty. -/
theorem storeCond_iff (d : Decision) :
    storeCond d = true ↔
      d.should_store = true ∧ (∃ t, d.topic = some t ∧ t ≠ "") ∧
        (∃ s, d.summary = some s ∧ s ≠ "") := by
  obtain ⟨b, t, s⟩ := d
  cases t <;> cases s <;> cases b <;> simp [storeCond, truthy]

/-- C4: in one orchestrator turn, storeMemory is called at most once, it is
called exactly when the decision has should_store true and both topic and
summary present and non-empty, and the call carries that topic and summary. -/
theorem c4_store_iff :
    ∀ inp : TurnInput,
      ((runTurn inp).storeAttempts ≠ [] ↔
        (runTurn inp).decision.should_store = true ∧
        (∃ t, (runTurn inp).decision.topic = some t ∧ t ≠ "") ∧
        (∃ s, (runTurn inp).decision.summary = some s ∧ s ≠ "")) ∧
      (runTurn inp).storeAttempts.length ≤ 1 ∧
      (∀ t s, (runTurn inp).decision.topic = some t →
        (runTurn inp).decision.summary = some s →
        (runTurn inp).storeAttempts = [] ∨ (runTurn inp).storeAttempts = [(t, s)]) := by
  intro inp
  have hA := runTurn_storeAttempts inp
  cases hc : storeCond (runTurn inp).decision with
  | false =>
    rw [hc] at hA
    simp at hA
    refine ⟨?_, ?_, ?_⟩
    · constructor
      · intro h
        exact absurd hA h
      · intro hR
        have hT := (storeCond_iff _).mpr hR
        rw [hc] at hT
        exact absurd hT Bool.false_ne_true
    · rw [hA]; simp
    · intro t s _ _
      exact Or.inl hA
  | true =>
    rw [hc] at hA
    simp at hA
    refine ⟨?_, ?_, ?_⟩
    · constructor
      · intro _
        exact (storeCond_iff _).mp hc
      · intro _
        rw [hA]
        simp
    · rw [hA]; simp
    · intro t s ht hs
      right
      rw [hA, ht, hs]
      rfl

/-- C4 witness: the turn whose decision JSON asks to store a non-empty topic
and summary issues exactly that one store call. -/
theorem c4_witness :
    (runTurn c4Input).storeAttempts = [] ∨
    (runTurn c4Input).storeAttempts = [("identity_profile", "User name is Alex")] :=
  (c4_store_iff c4Input).2.2 "identity_profile" "User name is Alex" rfl rfl

/-- A memory returned by getLatestMemory carries the queried topic label. -/
theorem getLatestMemory_topic (r : TopicRead) (topic : String) (m : MemoryWithTopic)
    (h : getLatestMemory r topic = some m) : m.topic = topic := by
  unfold getLatestMemory at h
  cases hr : rawGetLatest r with
  | success a =>
    rw [hr] at h
    cases h
    rfl
  | revert => rw [hr] at h; cases h
  | transportFail => rw [hr] at h; cases h

/-- A transport failure makes getLatestMemory return null. -/
theorem getLatestMemory_of_transport (r : TopicRead) (topic : String)
    (h : r.transportOk = false) : getLatestMemory r topic = none := by
  unfold getLatestMemory rawGetLatest
  rw [h]
  rfl

/-- C5: in the reading phase over the fixed candidate topics, every memory in
the result comes from a successful per-topic read, every successful read is
kept, a topic whose transport failed contributes nothing, and the turn always
proceeds: the reply generation receives the user message and exactly the
retrieved memories, and the decision step runs on them; this holds for every
assignment of per-topic outcomes, hence for every subset of failing topics. -/
theorem c5_reading :
    ∀ inp : TurnInput,
      (∀ m ∈ (runTurn inp).memories,
        m.topic ∈ agentTopics ∧ getLatestMemory (inp.reads m.topic) m.topic = some m) ∧
      (∀ t ∈ agentTopics, ∀ rec, getLatestMemory (inp.reads t) t = some rec →
        rec ∈ (runTurn inp).memories) ∧
      (∀ t ∈ agentTopics, (inp.reads t).transportOk = false →
        ∀ m ∈ (runTurn inp).memories, m.topic ≠ t) ∧
      (runTurn inp).replyMsg = inp.msg ∧
      (runTurn inp).replyMemories = (runTurn inp).memories ∧
      (runTurn inp).decision = decideMemory (runTurn inp).memories inp.decisionJson := by
  intro inp
  have hmem := runTurn_memories inp
  refine ⟨?_, ?_, ?_, runTurn_replyMsg inp, runTurn_replyMemories inp, ?_⟩
  · intro m hm
    rw [hmem, List.mem_filterMap] at hm
    obtain ⟨t, ht, hf⟩ := hm
    have htop := getLatestMemory_topic _ _ _ hf
    exact ⟨by rw [htop]; exact ht, by rw [htop]; exact hf⟩
  · intro t ht rec hrec
    rw [hmem, List.mem_filterMap]
    exact ⟨t, ht, hrec⟩
  · intro t ht htr m hm htop
    rw [hmem, List.mem_filterMap] at hm
    obtain ⟨t', ht', hf⟩ := hm
    have h1 := getLatestMemory_topic _ _ _ hf
    rw [htop] at h1
    rw [← h1] at hf
    rw [getLatestMemory_of_transport (inp.reads t) t htr] at hf
    exact Option.noConfusion hf
  · rw [runTurn_decision inp, hmem]

/-- C5 witness: in the concrete scenario where exactly one of the three
candidate topics fails at the transport level, the turn still passes the two
successfully retrieved memories to the reply step and no memory of the failing
topic appears. -/
theorem c5_witness :
    (runTurn c5Input).replyMemories = (runTurn c5Input).memories ∧
    (⟨"identity_profile", "name Alex", 2, "0xw"⟩ : MemoryWithTopic) ∈
      (runTurn c5Input).memories ∧
    (⟨"risk_profile", "low risk", 3, "0xw"⟩ : MemoryWithTopic) ∈
      (runTurn c5Input).memories ∧
    getLatestMemory (c5Input.reads "preferences") "preferences" = none :=
  ⟨(c5_reading c5Input).2.2.2.2.1,
   (c5_reading c5Input).2.1 "identity_profile" (by decide) _ (by decide),
   (c5_reading c5Input).2.1 "risk_profile" (by decide) _ (by decide),
   rfl⟩

/-- C6: a failing write is reported but never fatal and never retried: each
turn issues at most one store call, the write error flag is set exactly when a
store was attempted and the write failed, the turn still yields a result, and
the loop processes every subsequent utterance whatever the write outcome. -/
theorem c6_write_failure :
    ∀ (inp : TurnInput) (inps : List TurnInput),
      (runTurn inp).storeAttempts.length ≤ 1 ∧
      ((runTurn inp).storeError = true ↔
        storeCond (runTurn inp).decision = true ∧ inp.writeOk = false) ∧
      runLoop (inp :: inps) = runTurn inp :: runLoop inps ∧
      (runLoop inps).length = inps.length := by
  intro inp inps
  refine ⟨?_, ?_, rfl, by simp [runLoop]⟩
  · rw [runTurn_storeAttempts inp]
    cases storeCond (runTurn inp).decision <;> simp
  · rw [runTurn_storeError inp]
    cases storeCond (runTurn inp).decision <;> cases hw : inp.writeOk <;> simp

/-- Unfolding of the index loop at a successful read: the record is pushed and
the loop continues at the next index. -/
theorem readRecords_succ_of_success (s : Nat → CallOutcome MemoryRecord)
    (topic : String) (i k : Nat) (m : MemoryRecord)
    (hs : s i = CallOutcome.success m) :
    readRecords s topic i (k + 1) =
      ⟨topic, m.content, m.timestamp, m.writer⟩ :: readRecords s topic (i + 1) k := by
  conv_lhs => unfold readRecords
  rw [hs]

/-- Unfolding of the index loop at a failing read: the loop ends, keeping
nothing from this index on. -/
theorem readRecords_succ_of_fail (s : Nat → CallOutcome MemoryRecord)
    (topic : String) (i k : Nat) (hs : isSuccess (s i) = false) :
    readRecords s topic i (k + 1) = [] := by
  unfold readRecords
  cases hsi : s i with
  | success m => rw [hsi] at hs; exact absurd hs (by simp [isSuccess])
  | revert => rfl
  | transportFail => rfl

theorem recordAt_of_success (s : Nat → CallOutcome MemoryRecord) (topic : String)
    (i : Nat) (m : MemoryRecord) (hs : s i = CallOutcome.success m) :
    recordAt s topic i = ⟨topic, m.content, m.timestamp, m.writer⟩ := by
  unfold recordAt
  rw [hs]

/-- The index loop of the scan equals the takeWhile description: the successful
reads from index i, stopping at the first failure within the k remaining
indices. -/
theorem readRecords_eq (s : Nat → CallOutcome MemoryRecord) (topic : String)
    (i k : Nat) :
    readRecords s topic i k =
      ((List.range' i k).takeWhile (fun j => isSuccess (s j))).map
        (recordAt s topic) := by
  induction k generalizing i with
  | zero => rfl
  | succ k ih =>
    rw [List.range'_succ]
    cases hs : s i with
    | success m =>
      have hp : isSuccess (s i) = true := by rw [hs]; rfl
      rw [@List.takeWhile_cons_of_pos _ (fun j => isSuccess (s j)) i
          (List.range' (i + 1) k) hp, List.map_cons,
        readRecords_succ_of_success s topic i k m hs, ih,
        recordAt_of_success s topic i m hs]
    | revert =>
      have hp : isSuccess (s i) = false := by rw [hs]; rfl
      rw [@List.takeWhile_cons_of_neg _ (fun j => isSuccess (s j)) i
          (List.range' (i + 1) k) (by simp [hp]),
        readRecords_succ_of_fail s topic i k hp]
      rfl
    | transportFail =>
      have hp : isSuccess (s i) = false := by rw [hs]; rfl
      rw [@List.takeWhile_cons_of_neg _ (fun j => isSuccess (s j)) i
          (List.range' (i + 1) k) (by simp [hp]),
        readRecords_succ_of_fail s topic i k hp]
      rfl

/-- One scanned topic equals its specification-side description. -/
theorem scanTopic_eq_expected (sc : TopicScan) (topic : String) :
    scanTopic sc topic = expectedTopicRecords sc topic := by
  unfold scanTopic expectedTopicRecords
  cases sc.countResult with
  | success count =>
    show readRecords sc.memResult topic 0 count =
      ((List.range count).takeWhile (fun i => isSuccess (sc.memResult i))).map
        (recordAt sc.memResult topic)
    rw [readRecords_eq, List.range_eq_range']
  | revert => rfl
  | transportFail => rfl

/-- C7 counterexample: under the concrete ledger where the topic
identity_profile reports two records but its second indexed read fails, and
every other catalog topic fails at the count read, the claim says the scan
returns only records of non-failing topics, that is, the empty sequence; the
code instead keeps the record read before the failure. -/
theorem c7_partial_topic :
    (c7Ledger "identity_profile").countResult = CallOutcome.success 2 ∧
    (c7Ledger "identity_profile").memResult 1 = CallOutcome.transportFail ∧
    (∀ t ∈ knownTopics, t ≠ "identity_profile" →
      (c7Ledger t).countResult = CallOutcome.revert) ∧
    fetchUserMemories c7Ledger =
      [⟨"identity_profile", "partial record", 1, "0xwriter"⟩] := by
  refine ⟨rfl, rfl, ?_, ?_⟩
  · decide
  · rfl

/-- C7 (amended): the scan always completes and never raises; it returns, in
catalog order, each topic's contribution, where a topic contributes the
records of indices 0 to count-1 up to but excluding the first failing read
(hence all its records in write order when every read succeeds, and nothing
when the count read fails); a topic failing partway through thus contributes
the prefix read before the failure rather than being omitted entirely. -/
theorem c7_scan_spec :
    (∀ ledger : String → TopicScan,
      fetchUserMemories ledger =
        (knownTopics.map (fun t => expectedTopicRecords (ledger t) t)).flatten) ∧
    (∀ (sc : TopicScan) (topic : String) (count : Nat),
      sc.countResult = CallOutcome.success count →
      (∀ i, i < count → isSuccess (sc.memResult i) = true) →
      scanTopic sc topic = (List.range count).map (recordAt sc.memResult topic)) ∧
    (∀ (sc : TopicScan) (topic : String),
      isSuccess sc.countResult = false → scanTopic sc topic = []) := by
  refine ⟨?_, ?_, ?_⟩
  · intro ledger
    unfold fetchUserMemories
    simp [scanTopic_eq_expected]
  · intro sc topic count hc hall
    have htw : (List.range count).takeWhile (fun i => isSuccess (sc.memResult i)) =
        List.range count := by
      rw [List.takeWhile_eq_self_iff]
      intro x hx
      exact hall x (List.mem_range.mp hx)
    rw [scanTopic_eq_expected]
    unfold expectedTopicRecords
    rw [hc]
    show ((List.range count).takeWhile (fun i => isSuccess (sc.memResult i))).map
        (recordAt sc.memResult topic) = _
    rw [htw]
  · intro sc topic hfail
    rw [scanTopic_eq_expected]
    unfold expectedTopicRecords
    cases hc : sc.countResult with
    | success count =>
      rw [hc] at hfail
      exact absurd hfail (by simp [isSuccess])
    | revert => rfl
    | transportFail => rfl

/-- C7 witness: the amended theorem applied to a concrete fully successful
two-record topic yields both records in write order. -/
theorem c7_witness :
    scanTopic c7GoodScan "goals" =
      [⟨"goals", "first", 10, "0xw"⟩, ⟨"goals", "second", 11, "0xw"⟩] := by
  have h := c7_scan_spec.2.1 c7GoodScan "goals" 2 rfl (by decide)
  rw [h]
  rfl

/-- C8 counterexample: a store-memory request whose three fields are all
present, with content the empty string, is rejected with 400 and no ledger
call even though the write would succeed, because the JavaScript truthiness
check conflates a present empty string with a missing field; the claim that
presence of all three fields plus a successful write yields success is false. -/
theorem c8_empty_content :
    c8BodyEmpty.user_address = some "0xabc" ∧
    c8BodyEmpty.topic = some "prefs" ∧
    c8BodyEmpty.content = some "" ∧
    workerFetch ⟨"POST", "/store-memory", c8BodyEmpty⟩
        (CallOutcome.success "0xtx") CallOutcome.revert =
      (⟨400, RespBody.fieldError "Missing required fields: user_address, topic, content"⟩,
        0) := by
  refine ⟨rfl, rfl, rfl, rfl⟩

/-- C8 (amended): the store-memory endpoint returns 400 with a structured
error body and issues no ledger write whenever any of the three fields is
missing or empty (in particular whenever one is absent), and returns 200 with
success, message and transaction hash, after exactly one write call, when all
three fields are present and non-empty and the write succeeds. -/
theorem c8_store_spec :
    ∀ (body : ReqBody) (wr : CallOutcome String) (rr : CallOutcome MemoryRecord),
      ((body.user_address = none ∨ body.topic = none ∨ body.content = none) →
        workerFetch ⟨"POST", "/store-memory", body⟩ wr rr =
          (⟨400, RespBody.fieldError
            "Missing required fields: user_address, topic, content"⟩, 0)) ∧
      ((truthy body.user_address && truthy body.topic && truthy body.content) = false →
        workerFetch ⟨"POST", "/store-memory", body⟩ wr rr =
          (⟨400, RespBody.fieldError
            "Missing required fields: user_address, topic, content"⟩, 0)) ∧
      (∀ tx, (truthy body.user_address && truthy body.topic && truthy body.content) = true →
        wr = CallOutcome.success tx →
        workerFetch ⟨"POST", "/store-memory", body⟩ wr rr =
          (⟨200, RespBody.storeOk
            ("Successfully stored memory for user " ++ body.user_address.getD ""
              ++ " under topic " ++ body.topic.getD "") tx⟩, 1)) := by
  intro body wr rr
  have hfalse : ∀ h : (truthy body.user_address && truthy body.topic &&
      truthy body.content) = false,
      workerFetch ⟨"POST", "/store-memory", body⟩ wr rr =
        (⟨400, RespBody.fieldError
          "Missing required fields: user_address, topic, content"⟩, 0) := by
    intro h
    simp [workerFetch, h]
  refine ⟨?_, hfalse, ?_⟩
  · intro h
    apply hfalse
    rcases h with h | h | h <;> rw [h] <;> simp [truthy]
  · intro tx h htx
    subst htx
    simp [workerFetch, h]

/-- C8 witness: the spec scenario, a request with the content field absent, is
rejected with 400 and no ledger call. -/
theorem c8_witness :
    workerFetch ⟨"POST", "/store-memory", c8BodyMissing⟩
        (CallOutcome.success "0xtx") CallOutcome.revert =
      (⟨400, RespBody.fieldError "Missing required fields: user_address, topic, content"⟩,
        0) :=
  (c8_store_spec c8BodyMissing (CallOutcome.success "0xtx") CallOutcome.revert).1
    (Or.inr (Or.inr rfl))

/-- C9 counterexample: the GET branch never inspects the path, so a GET
request to a path other than the root still receives the service descriptor
with status 200 instead of the 404 the claim requires. -/
theorem c9_get_any_path :
    workerFetch ⟨"GET", "/not-the-root", ⟨none, none, none⟩⟩
        CallOutcome.revert CallOutcome.revert =
      (⟨200, RespBody.descriptor⟩, 0) ∧
    ("/not-the-root" : String) ≠ "/" := by
  refine ⟨rfl, by decide⟩

/-- C9 (amended): every GET request receives the service descriptor regardless
of path; every OPTIONS request receives the CORS preflight response; POST to
/store-memory and POST to /get-memory are handled by their endpoints; every
other method and path combination receives 404. -/
theorem c9_routing_spec :
    ∀ (req : WorkerRequest) (wr : CallOutcome String) (rr : CallOutcome MemoryRecord),
      (req.method = "GET" →
        workerFetch req wr rr = (⟨200, RespBody.descriptor⟩, 0)) ∧
      (req.method = "OPTIONS" →
        workerFetch req wr rr = (⟨204, RespBody.preflight⟩, 0)) ∧
      (req.method ≠ "GET" → req.method ≠ "OPTIONS" →
        ¬(req.method = "POST" ∧ (req.path = "/store-memory" ∨ req.path = "/get-memory")) →
        workerFetch req wr rr = (⟨404, RespBody.notFound⟩, 0)) := by
  intro req wr rr
  obtain ⟨method, path, body⟩ := req
  refine ⟨?_, ?_, ?_⟩
  · intro h
    subst h
    rfl
  · intro h
    subst h
    rfl
  · intro hg ho hp
    have h1 : (method == "GET") = false := beq_eq_false_iff_ne.mpr hg
    have h2 : (method == "OPTIONS") = false := beq_eq_false_iff_ne.mpr ho
    by_cases hm : method = "POST"
    · have hp1 : (path == "/store-memory") = false := by
        apply beq_eq_false_iff_ne.mpr
        intro hpath
        exact hp ⟨hm, Or.inl hpath⟩
      have hp2 : (path == "/get-memory") = false := by
        apply beq_eq_false_iff_ne.mpr
        intro hpath
        exact hp ⟨hm, Or.inr hpath⟩
      simp [workerFetch, h1, h2, hp1, hp2]
    · have h3 : (method == "POST") = false := beq_eq_false_iff_ne.mpr hm
      simp [workerFetch, h1, h2, h3]

/-- C9 witness: a DELETE request to the store endpoint path receives 404. -/
theorem c9_witness :
    workerFetch ⟨"DELETE", "/store-memory", ⟨none, none, none⟩⟩
        CallOutcome.revert CallOutcome.revert = (⟨404, RespBody.notFound⟩, 0) :=
  (c9_routing_spec ⟨"DELETE", "/store-memory", ⟨none, none, none⟩⟩
      CallOutcome.revert CallOutcome.revert).2.2
    (by decide) (by decide) (by decide)

/-- C10: configuration resolution trims every candidate value, treats a missing
or whitespace-only candidate as absent, resolves each variable by the fixed
precedence explicit env argument, then wrangler.jsonc vars, then process.env,
falls MODEL_ID back to the fixed default model id of each agent, and a required
variable whose candidates are all missing or whitespace-only makes startup
exit fatally. -/
theorem c10_getEnv_spec :
    (∀ (s : String) (v p : Option String), trimString s ≠ "" →
      resolveVar (some s) v p = some (trimString s)) ∧
    (∀ (s : String) (v p : Option String), trimString s = "" →
      resolveVar (some s) v p = resolveVar none v p) ∧
    (∀ (s : String) (p : Option String), trimString s ≠ "" →
      resolveVar none (some s) p = some (trimString s)) ∧
    (∀ (s : String) (p : Option String), trimString s = "" →
      resolveVar none (some s) p = resolveVar none none p) ∧
    (∀ s : String, trimString s ≠ "" →
      resolveVar none none (some s) = some (trimString s)) ∧
    (∀ s : String, trimString s = "" → resolveVar none none (some s) = none) ∧
    resolveVar none none none = none ∧
    (∀ env vars procEnv : EnvSource,
      resolveVar env.MODEL_ID vars.MODEL_ID procEnv.MODEL_ID = none →
      (getEnv env vars procEnv).MODEL_ID = "claude-3-5-sonnet-20241022" ∧
      getEnvAgent2ModelId env vars procEnv = "claude-sonnet-4-20250514") ∧
    (∀ env vars procEnv : EnvSource,
      resolveVar env.ANTHROPIC_API_KEY vars.ANTHROPIC_API_KEY
        procEnv.ANTHROPIC_API_KEY = none →
      initConfig env vars procEnv = none) := by
  refine ⟨?_, ?_, ?_, ?_, ?_, ?_, rfl, ?_, ?_⟩
  · intro s v p h
    simp [resolveVar, safeVar, beq_eq_false_iff_ne.mpr h, Option.orElse]
  · intro s v p h
    simp [resolveVar, safeVar, h, Option.orElse]
  · intro s p h
    simp [resolveVar, safeVar, beq_eq_false_iff_ne.mpr h, Option.orElse]
  · intro s p h
    simp [resolveVar, safeVar, h, Option.orElse]
  · intro s h
    simp [resolveVar, safeVar, beq_eq_false_iff_ne.mpr h, Option.orElse]
  · intro s h
    simp [resolveVar, safeVar, h, Option.orElse]
  · intro env vars procEnv h
    constructor
    · simp [getEnv, h]
    · simp [getEnvAgent2ModelId, h]
  · intro env vars procEnv h
    simp [initConfig, getEnv, h, truthyStr, truthy]

/-- C10 witness: a padded key is trimmed and wins the precedence chain, the
agent-2 default model id applies when no candidate is set, and a whitespace-only
required key makes startup fail. -/
theorem c10_witness :
    resolveVar (some "  key ") none none = some "key" ∧
    getEnvAgent2ModelId wsEnv {} {} = "claude-sonnet-4-20250514" ∧
    initConfig wsEnv {} {} = none :=
  ⟨by
    have h := c10_getEnv_spec.1 "  key " none none (by decide)
    rw [h]
    rfl,
   (c10_getEnv_spec.2.2.2.2.2.2.2.1 wsEnv {} {} (by decide)).2,
   c10_getEnv_spec.2.2.2.2.2.2.2.2 wsEnv {} {} (by decide)⟩
